import Mathlib

/-!
Shallow embedding of the core of the `global-impact-stream-27` repository:
the rule-based validation engine (source: `src/unnamed/part_014`, class
`ValidationEngine`) and the submission processing pipeline with retry
(source: `src/src/services/submissionService.ts`, class `SubmissionService`).

Conventions used throughout the embedding:
* JS strings are Lean `String`; `toLowerCase` is modelled by `String.toLower`
  (the contents relevant to the claims are ASCII).
* JS timestamps (`Date` values, `Date.now()`) are modelled as `Int`
  milliseconds; the current time is threaded explicitly as a `now` argument.
* JS numbers holding survivor counts are modelled as `Int` (the source
  applies `|| 0` to them, which is the identity on integer values).
* Rule confidences are modelled as `Rat` (`ℚ`); the concrete values in the
  source (1.0, 0.95, 0.98, 0.85, 0.80) are exact rationals.
* A thrown JS exception is modelled as `Option`/`Except` with the error
  message as the payload.
-/

set_option maxRecDepth 16000

namespace Impact

/-- Mirrors the `ValidationError` interface of `src/unnamed/part_014`. -/
structure ValidationError where
  field : String
  code : String
  message : String
  severity : String
  suggestion : Option String
  canOverride : Bool
deriving DecidableEq, Repr

/-- Mirrors the `ValidationWarning` interface of `src/unnamed/part_014`. -/
structure ValidationWarning where
  field : String
  code : String
  message : String
  suggestion : Option String
deriving DecidableEq, Repr

/-- Mirrors the `ValidationResult` interface of `src/unnamed/part_014`.
The `timestamp` string of the source is modelled as the `Int` time at which
the result was produced. -/
structure ValidationResult where
  isValid : Bool
  errors : List ValidationError
  warnings : List ValidationWarning
  confidence : Rat
  timestamp : Int
deriving DecidableEq, Repr

/-- Mirrors the `ValidationOverride` interface of `src/unnamed/part_014`
(`timestamp` is omitted: it is never read by the engine; `expiresAt` is the
parsed expiry time). -/
structure ValidationOverride where
  errorCode : String
  reason : String
  authorizedBy : String
  expiresAt : Option Int
deriving DecidableEq, Repr

/-- The field-keyed submission record (`data : any`) as read by the default
rules of `src/unnamed/part_014`: every field a rule accesses is an optional
field here (absent = `undefined`). Date-valued fields are parsed timestamps. -/
structure SubmissionData where
  content : Option String := none
  privacy_level : Option String := none
  partner_id : Option String := none
  submission_type : Option String := none
  new_survivors : Option Int := none
  existing_survivors : Option Int := none
  total_survivors : Option Int := none
  report_date : Option Int := none
  incident_date : Option Int := none
  created_at : Option Int := none
  start_date : Option Int := none
  end_date : Option Int := none
  title : Option String := none
  description : Option String := none
  notes : Option String := none
deriving DecidableEq, Repr

/-- One registered validation rule; mirrors the `ValidationRule` interface.
`validator` returning `none` models the validator throwing an exception
(used by the engine's per-rule `try`/`catch`). -/
structure Rule where
  id : String
  name : String
  descr : String
  severity : String
  active : Bool
  submissionTypes : List String
  validator : SubmissionData → Option ValidationResult

/-- The `en` entries of the `validationMessages` table. -/
def messagesEn : String → Option String
  | "required_field" => some "This field is required"
  | "invalid_email" => some "Please enter a valid email address"
  | "invalid_date" => some "Please enter a valid date"
  | "future_date" => some "Date cannot be in the future"
  | "invalid_number" => some "Please enter a valid number"
  | "survivor_count_mismatch" =>
      some "New survivors + existing survivors must equal total survivors"
  | "date_sequence_error" => some "End date must be after start date"
  | "character_limit_exceeded" => some "Text exceeds maximum character limit"
  | "invalid_phone" => some "Please enter a valid phone number"
  | "suspicious_data" => some "Data appears suspicious, please review"
  | "duplicate_submission" => some "Similar submission already exists"
  | _ => none

/-- The `ne` entries of the `validationMessages` table. -/
def messagesNe : String → Option String
  | "required_field" => some "यो फिल्ड आवश्यक छ"
  | "invalid_email" => some "कृपया मान्य इमेल ठेगाना प्रविष्ट गर्नुहोस्"
  | "invalid_date" => some "कृपया मान्य मिति प्रविष्ट गर्नुहोस्"
  | "future_date" => some "मिति भविष्यमा हुन सक्दैन"
  | "invalid_number" => some "कृपया मान्य संख्या प्रविष्ट गर्नुहोस्"
  | "survivor_count_mismatch" => some "नयाँ बाँचेका + अवस्थित बाँचेका = कुल बाँचेका हुनुपर्छ"
  | "date_sequence_error" => some "अन्त्य मिति सुरु मिति पछि हुनुपर्छ"
  | "character_limit_exceeded" => some "पाठले अधिकतम वर्ण सीमा नाघेको छ"
  | "invalid_phone" => some "कृपया मान्य फोन नम्बर प्रविष्ट गर्नुहोस्"
  | "suspicious_data" => some "डाटा संदिग्ध देखिन्छ, कृपया समीक्षा गर्नुहोस्"
  | "duplicate_submission" => some "समान पेशकश पहिले नै अवस्थित छ"
  | _ => none

/-- The `km` entries of the `validationMessages` table. -/
def messagesKm : String → Option String
  | "required_field" => some "វាលនេះត្រូវបានទាមទារ"
  | "invalid_email" => some "សូមបញ្ចូលអាសយដ្ឋានអ៊ីមែលដែលត្រឹមត្រូវ"
  | "invalid_date" => some "សូមបញ្ចូលកាលបរិច្ឆេទដែលត្រឹមត្រូវ"
  | "future_date" => some "កាលបរិច្ឆេទមិនអាចនៅអនាគតបានទេ"
  | "invalid_number" => some "សូមបញ្ចូលលេខដែលត្រឹមត្រូវ"
  | "survivor_count_mismatch" =>
      some "អ្នករស់រានមាណជីវិតថ្មី + អ្នករស់រានមាណជីវិតដែលមានស្រាប់ ត្រូវតែស្មើនឹងអ្នករស់រានមាណជីវិតសរុប"
  | "date_sequence_error" => some "កាលបរិច្ឆេទបញ្ចប់ត្រូវតែនៅក្រោយកាលបរិច្ឆេទចាប់ផ្តើម"
  | "character_limit_exceeded" => some "អត្ថបទលើសពីដែនកំណត់តួអក្សរអតិបរមា"
  | "invalid_phone" => some "សូមបញ្ចូលលេខទូរស័ព្ទដែលត្រឹមត្រូវ"
  | "suspicious_data" => some "ទិន្នន័យហាក់បីដូចជាគួរឱ្យសង្ស័យ សូមពិនិត្យឡើងវិញ"
  | "duplicate_submission" => some "ការដាក់ស្នើស្រដៀងគ្នាមានរួចហើយ"
  | _ => none

/-- `ValidationEngine.getMessage`: look up the locale's table (falling back to
`en` for an unknown locale) and fall back to the key itself for a missing key
(`messages[key] || key`). -/
def getMessage (locale key : String) : String :=
  let table := if locale = "en" then messagesEn
    else if locale = "ne" then messagesNe
    else if locale = "km" then messagesKm
    else messagesEn
  (table key).getD key

/-- `String.toLowerCase` over the character list (the relevant contents are
ASCII, where `Char.toLower` agrees with the JS conversion). -/
def toLowerStr (s : String) : String := String.mk (s.data.map Char.toLower)

/-- ASCII whitespace as trimmed by `String.trim`. -/
def isWsChar (c : Char) : Bool := c = ' ' || c = '\t' || c = '\r' || c = '\n'

/-- Leading and trailing whitespace removal over the character list. -/
def trimChars (l : List Char) : List Char :=
  ((l.dropWhile isWsChar).reverse.dropWhile isWsChar).reverse

/-- JS `s.trim()` (restricted to ASCII whitespace, which covers the claims). -/
def trimStr (s : String) : String := String.mk (trimChars s.data)

/-- JS string truthiness plus `!data[field].trim()` as used by the
required-fields rule: a field is blank when absent, empty, or whitespace. -/
def requiredBlank : Option String → Bool
  | none => true
  | some s => (trimStr s).data.isEmpty

/-- JS `hay.includes(needle)`: substring containment. -/
def strIncludes (hay needle : String) : Bool :=
  hay.data.tails.any (fun t => needle.data.isPrefixOf t)

/-- JS `parts.join(sep)`. -/
def joinSep (sep : String) : List String → String
  | [] => ""
  | [x] => x
  | x :: xs => x ++ sep ++ joinSep sep xs

/-- `ValidationEngine.validateRequiredFields` (part_014 lines 277-300):
`content`, `privacy_level` and `partner_id` must be present and non-blank. -/
def validateRequiredFields (locale : String) (now : Int) (d : SubmissionData) :
    ValidationResult :=
  let mkErr : String → ValidationError := fun f =>
    { field := f, code := "required_field", message := getMessage locale "required_field",
      severity := "high", suggestion := none, canOverride := false }
  let errors :=
    (if requiredBlank d.content then [mkErr "content"] else []) ++
    (if requiredBlank d.privacy_level then [mkErr "privacy_level"] else []) ++
    (if requiredBlank d.partner_id then [mkErr "partner_id"] else [])
  { isValid := errors.isEmpty, errors := errors, warnings := [],
    confidence := 1, timestamp := now }

/-- `ValidationEngine.validateSurvivorCounts` (part_014 lines 305-344): when
all three counters are provided, error when `new + existing ≠ total`
(suggesting the computed sum), warn when `new_survivors > 100`. The source's
`(x || 0)` coercion is the identity on integer values. -/
def validateSurvivorCounts (locale : String) (now : Int) (d : SubmissionData) :
    ValidationResult :=
  match d.new_survivors, d.existing_survivors, d.total_survivors with
  | some ns, some es, some ts =>
    let calculatedTotal := ns + es
    let errors :=
      if calculatedTotal ≠ ts then
        [{ field := "total_survivors", code := "survivor_count_mismatch",
           message := getMessage locale "survivor_count_mismatch", severity := "high",
           suggestion := some ("Expected total: " ++ toString calculatedTotal),
           canOverride := true }]
      else []
    let warnings :=
      if ns > 100 then
        [{ field := "new_survivors", code := "large_survivor_count",
           message := "Large number of new survivors detected - please verify",
           suggestion := some "Double-check the count for accuracy" }]
      else []
    { isValid := errors.isEmpty, errors := errors, warnings := warnings,
      confidence := 0.95, timestamp := now }
  | _, _, _ =>
    { isValid := true, errors := [], warnings := [], confidence := 0.95, timestamp := now }

/-- `ValidationEngine.validateDateRanges` (part_014 lines 349-394): error on
future `report_date`/`incident_date`/`created_at`; error when
`end_date ≤ start_date` with both present. -/
def validateDateRanges (locale : String) (now : Int) (d : SubmissionData) :
    ValidationResult :=
  let futureErr : String → Option Int → List ValidationError := fun f v =>
    match v with
    | some t =>
      if t > now then
        [{ field := f, code := "future_date", message := getMessage locale "future_date",
           severity := "medium", suggestion := none, canOverride := true }]
      else []
    | none => []
  let seqErr : List ValidationError :=
    match d.start_date, d.end_date with
    | some s, some e =>
      if e ≤ s then
        [{ field := "end_date", code := "date_sequence_error",
           message := getMessage locale "date_sequence_error", severity := "high",
           suggestion := none, canOverride := false }]
      else []
    | _, _ => []
  let errors := futureErr "report_date" d.report_date ++
    futureErr "incident_date" d.incident_date ++
    futureErr "created_at" d.created_at ++ seqErr
  { isValid := errors.isEmpty, errors := errors, warnings := [],
    confidence := 0.98, timestamp := now }

/-- The fixed `limits` table of `ValidationEngine.validateCharacterLimits`,
in `Object.entries` (insertion) order. -/
def charLimits : List (String × Nat) :=
  [("content", 10000), ("title", 200), ("description", 1000), ("notes", 5000)]

/-- Field accessor for the character-limit rule. -/
def limitField (d : SubmissionData) : String → Option String
  | "content" => d.content
  | "title" => d.title
  | "description" => d.description
  | "notes" => d.notes
  | _ => none

/-- One field of `validateCharacterLimits` (part_014 lines 410-429): skip an
absent or empty (falsy) field, error when `length > limit`, otherwise warn
when `length > limit * 0.9`. Each cap is divisible by 10, so the JS float
product `limit * 0.9` equals the exact integer `9 * limit / 10`; the strict
comparison is therefore `10 * length > 9 * limit`. -/
def checkLimit (locale : String) (field : String) (limit : Nat) (v : Option String) :
    List ValidationError × List ValidationWarning :=
  match v with
  | none => ([], [])
  | some s =>
    if s = "" then ([], [])
    else if s.length > limit then
      ([{ field := field, code := "character_limit_exceeded",
          message := getMessage locale "character_limit_exceeded", severity := "medium",
          suggestion := some ("Current: " ++ toString s.length ++ ", Max: " ++ toString limit),
          canOverride := true }], [])
    else if 10 * s.length > 9 * limit then
      ([], [{ field := field, code := "approaching_character_limit",
              message := "Approaching character limit (" ++ toString s.length ++ "/" ++
                toString limit ++ ")",
              suggestion := some "Consider shortening the text" }])
    else ([], [])

/-- `ValidationEngine.validateCharacterLimits` (part_014 lines 399-439). -/
def validateCharacterLimits (locale : String) (now : Int) (d : SubmissionData) :
    ValidationResult :=
  let results := charLimits.map (fun p => checkLimit locale p.1 p.2 (limitField d p.1))
  let errors := (results.map Prod.fst).flatten
  let warnings := (results.map Prod.snd).flatten
  { isValid := errors.isEmpty, errors := errors, warnings := warnings,
    confidence := 1, timestamp := now }

/-- Characters the JS regex `.` does not match (line terminators). -/
def lineTerm (c : Char) : Bool :=
  c = '\n' || c = '\r' || c = ' ' || c = ' '

/-- Length of the leading run of characters equal to `c`. -/
def leadRunLen (c : Char) : List Char → Nat
  | [] => 0
  | x :: xs => if x = c then leadRunLen c xs + 1 else 0

/-- The regex `(.)\1{10,}` of the data-consistency rule: some non-terminator
character occurs at least 11 times consecutively. -/
def hasRepeatedRun : List Char → Bool
  | [] => false
  | c :: cs => (!lineTerm c && decide (10 ≤ leadRunLen c cs)) || hasRepeatedRun cs

/-- `ValidationEngine.validateDataConsistency` (part_014 lines 444-479):
warning-only checks on the lowercased content; always `isValid`. -/
def validateDataConsistency (locale : String) (now : Int) (d : SubmissionData) :
    ValidationResult :=
  let warnings :=
    match d.content with
    | some s =>
      if s = "" then []
      else
        let content := toLowerStr s
        (if hasRepeatedRun content.data then
          [{ field := "content", code := "suspicious_data",
             message := getMessage locale "suspicious_data",
             suggestion := some "Check for repeated characters or test data" }]
         else []) ++
        (if content.length < 10 ∧ d.submission_type = some "crisis_report" then
          [{ field := "content", code := "insufficient_detail",
             message := "Crisis reports should contain more detail",
             suggestion := some "Please provide more comprehensive information" }]
         else [])
    | none => []
  { isValid := true, errors := [], warnings := warnings,
    confidence := 0.85, timestamp := now }

/-- `ValidationEngine.validateDuplicates` (part_014 lines 484-504): mock
duplicate detection, a warning when the content contains `test`. -/
def validateDuplicates (locale : String) (now : Int) (d : SubmissionData) :
    ValidationResult :=
  let _ := locale
  let warnings :=
    match d.content with
    | some s =>
      if s ≠ "" ∧ strIncludes s "test" then
        [{ field := "content", code := "potential_duplicate",
           message := "Similar submission may already exist",
           suggestion := some "Check recent submissions for duplicates" }]
      else []
    | none => []
  { isValid := true, errors := [], warnings := warnings,
    confidence := 0.80, timestamp := now }

/-- `ValidationEngine.initializeDefaultRules` (part_014 lines 206-272): the
six built-in rules, in registration (map-insertion) order. -/
def defaultRules (locale : String) (now : Int) : List Rule :=
  [{ id := "required_fields", name := "Required Fields",
     descr := "Validates that all required fields are present",
     severity := "error", active := true, submissionTypes := [],
     validator := fun d => some (validateRequiredFields locale now d) },
   { id := "survivor_count_logic", name := "Survivor Count Logic",
     descr := "Validates survivor count mathematics",
     severity := "error", active := true,
     submissionTypes := ["survivor_report", "monthly_report"],
     validator := fun d => some (validateSurvivorCounts locale now d) },
   { id := "date_range", name := "Date Range Validation",
     descr := "Validates date ranges and sequences",
     severity := "error", active := true, submissionTypes := [],
     validator := fun d => some (validateDateRanges locale now d) },
   { id := "character_limits", name := "Character Limits",
     descr := "Validates text field character limits",
     severity := "warning", active := true, submissionTypes := [],
     validator := fun d => some (validateCharacterLimits locale now d) },
   { id := "data_consistency", name := "Data Consistency",
     descr := "Checks for data consistency and suspicious patterns",
     severity := "warning", active := true, submissionTypes := [],
     validator := fun d => some (validateDataConsistency locale now d) },
   { id := "duplicate_detection", name := "Duplicate Detection",
     descr := "Detects potential duplicate submissions",
     severity := "warning", active := true, submissionTypes := [],
     validator := fun d => some (validateDuplicates locale now d) }]

/-- The skip conditions of the engine loop (part_014 lines 116-123): a rule
runs iff it is active and its type set is empty or contains the submission's
declared type (an absent declared type matches no non-empty type set). -/
def ruleApplies (r : Rule) (d : SubmissionData) : Bool :=
  r.active &&
    (r.submissionTypes.isEmpty ||
      (match d.submission_type with
       | some t => r.submissionTypes.contains t
       | none => false))

/-- The warning pushed by the engine's per-rule `catch` (part_014 lines
137-142). -/
def ruleErrorWarning (_locale : String) (r : Rule) : ValidationWarning :=
  { field := "system", code := "validation_rule_error",
    message := "Validation rule " ++ r.name ++ " encountered an error",
    suggestion := none }

/-- Accumulated state of the rule loop of `validateSubmission`: pushed
errors, pushed warnings, `totalConfidence` and `applicableRules`. -/
structure RuleAgg where
  errors : List ValidationError
  warnings : List ValidationWarning
  totalConfidence : Rat
  applicableRules : Nat
deriving Repr

/-- Concatenation of two loop states (first part of the loop, then the rest). -/
def RuleAgg.append (a b : RuleAgg) : RuleAgg :=
  { errors := a.errors ++ b.errors, warnings := a.warnings ++ b.warnings,
    totalConfidence := a.totalConfidence + b.totalConfidence,
    applicableRules := a.applicableRules + b.applicableRules }

/-- The rule loop of `ValidationEngine.validateSubmission` (part_014 lines
116-144). Note the source pushes a rule's errors and warnings only inside
`if (!result.isValid)`; confidence and the applicable-rule counter are
updated unconditionally, and a throwing validator contributes exactly the
`validation_rule_error` warning. -/
def runRules (locale : String) (d : SubmissionData) : List Rule → RuleAgg
  | [] => { errors := [], warnings := [], totalConfidence := 0, applicableRules := 0 }
  | r :: rs =>
    let rest := runRules locale d rs
    if ruleApplies r d then
      match r.validator d with
      | some res =>
        if res.isValid then
          { errors := rest.errors, warnings := rest.warnings,
            totalConfidence := res.confidence + rest.totalConfidence,
            applicableRules := rest.applicableRules + 1 }
        else
          { errors := res.errors ++ rest.errors,
            warnings := res.warnings ++ rest.warnings,
            totalConfidence := res.confidence + rest.totalConfidence,
            applicableRules := rest.applicableRules + 1 }
      | none =>
        { errors := rest.errors,
          warnings := ruleErrorWarning locale r :: rest.warnings,
          totalConfidence := rest.totalConfidence,
          applicableRules := rest.applicableRules }
    else rest

/-- `Map.get` over the override registry keyed by error code. -/
def findOverride (ovs : List ValidationOverride) (code : String) :
    Option ValidationOverride :=
  ovs.find? (fun ov => ov.errorCode = code)

/-- `ValidationEngine.addOverride`: `Map.set` keyed by `errorCode`. -/
def addOverride (o : ValidationOverride) (ovs : List ValidationOverride) :
    List ValidationOverride :=
  o :: ovs.filter (fun ov => ov.errorCode ≠ o.errorCode)

/-- `ValidationEngine.removeOverride`: `Map.delete` keyed by error code. -/
def removeOverride (code : String) (ovs : List ValidationOverride) :
    List ValidationOverride :=
  ovs.filter (fun ov => ov.errorCode ≠ code)

/-- The override filter predicate of `validateSubmission` (part_014 lines
147-150): an error is kept when no override is registered for its code, or
the registered override carries an expiry strictly in the past. -/
def keepsError (ovs : List ValidationOverride) (now : Int) (e : ValidationError) : Bool :=
  match findOverride ovs e.code with
  | none => true
  | some ov =>
    match ov.expiresAt with
    | none => false
    | some t => decide (t < now)

/-- `ValidationEngine.validateSubmission` (part_014 lines 110-161): run the
loop, filter overridden errors, average confidence (defaulting to 1.0 with
no applicable rules, clamped to [0,1]); `isValid` iff the filtered error
list is empty. -/
def validateSubmission (locale : String) (rules : List Rule)
    (ovs : List ValidationOverride) (now : Int) (d : SubmissionData) :
    ValidationResult :=
  let agg := runRules locale d rules
  let filteredErrors := agg.errors.filter (keepsError ovs now)
  let confidence : Rat :=
    if agg.applicableRules > 0 then agg.totalConfidence / agg.applicableRules else 1
  { isValid := filteredErrors.isEmpty, errors := filteredErrors,
    warnings := agg.warnings,
    confidence := max 0 (min 1 confidence), timestamp := now }

/-! ## Submission processing pipeline (`src/src/services/submissionService.ts`) -/

/-- Result of the transcription collaborator (`speechService.transcribeAudio`). -/
structure TranscriptionOutput where
  transcript : String
  confidence : Rat
deriving DecidableEq, Repr

/-- Result of the translation collaborator (`translationService.autoTranslate`). -/
structure TranslationOutput where
  translatedText : String
  sourceLanguage : String
  confidence : Rat
deriving DecidableEq, Repr

/-- External collaborators of `processSubmission`, injected explicitly.
`transcribe` covers `downloadMediaFile` plus `speechService.transcribeAudio`
(either throwing is one failed transcription step); `translate` is
`translationService.autoTranslate`. An `Except.error` carries the thrown
message. `now` is `Date.now()`. The persistence collaborator is modelled as
reliable: the submissions row is carried in the outcome directly. -/
structure PipelineEnv where
  transcribe : String → Except String TranscriptionOutput
  translate : String → Except String TranslationOutput
  now : Int

/-- One `processing_log` entry as written by `processSubmission`; optional
fields are present only on the entries that set them. Wall-clock step
durations (`processingTime`) are not modelled and recorded as 0. -/
structure LogEntry where
  timestamp : Int
  stage : String
  status : String
  errMsg : Option String
  retryCount : Option Nat
  nextRetryIn : Option Int
  processingTime : Option Int
  validationScore : Option Rat
deriving DecidableEq, Repr

/-- One analytics event recorded through `logSubmissionAnalytics` (payloads
are elided; the sink is fire-and-forget, so events are collected as pure
output). -/
structure EventRec where
  submission_id : String
  event_type : String
deriving DecidableEq, Repr

/-- Labels for the pipeline stages, appended in the order the corresponding
code of `processSubmission` is reached (used to state ordering claims). -/
inductive StepTag where
  | validation
  | transcription
  | translation
  | crisisDetection
  | persist
deriving DecidableEq, Repr

/-- The submissions row as read and written by `processSubmission`.
`media_audio` is `submission.media_files?.audio`; `crisis_flag` is the
`crisis_flag` column of the `submissions` table (added by the migrations
with `DEFAULT FALSE` and present in the generated database types). -/
structure SubmissionRow where
  id : String
  content : Option String
  privacy_level : Option String
  partner_id : Option String
  media_audio : Option String
  processing_status : String
  retry_count : Option Nat
  next_retry_at : Option Int
  processing_log : List LogEntry
  translated_content : Option String
  processed : Bool
  crisis_flag : Bool
deriving DecidableEq, Repr

/-- Projection of the row to the field-keyed record handed to
`defaultValidationEngine.validateSubmission(submission)`. The row carries
`submission_type_id` rather than `submission_type`, and the survivor
counters live inside `additional_data`, so neither reaches the engine;
fields not retained in the row model are absent. -/
def rowToData (sub : SubmissionRow) : SubmissionData :=
  { content := sub.content, privacy_level := sub.privacy_level,
    partner_id := sub.partner_id }

/-- The fixed crisis keyword list of `detectCrisisIndicators` (lines 632-635). -/
def crisisKeywords : List String :=
  ["emergency", "urgent", "crisis", "help", "danger", "immediate",
   "critical", "serious", "threat", "violence", "abuse", "attack"]

/-- `SubmissionService.detectCrisisIndicators` (lines 631-639):
case-insensitive substring match against the fixed keyword list. -/
def detectCrisisIndicators (content : String) : Bool :=
  let lowercaseContent := toLowerStr content
  crisisKeywords.any (fun keyword => strIncludes lowercaseContent keyword)

/-- `[submission.content, transcribedContent].filter(Boolean).join('\n\n')`
(lines 186-189): absent or empty parts are dropped. -/
def combineContent (content : Option String) (transcribed : String) : String :=
  let parts := [content.getD "", transcribed].filter (fun s => !s.data.isEmpty)
  joinSep "\n\n" parts

/-- Values accumulated by a successful run of the enrichment steps. -/
structure CoreOut where
  transcribed : String
  combined : String
  translated : String
  isCrisis : Bool
deriving DecidableEq, Repr

/-- Trace, analytics events and outcome of the enrichment steps (the body of
the `try` block of `processSubmission` up to the persistence update). -/
structure AttemptOut where
  steps : List StepTag
  events : List EventRec
  outcome : Except String CoreOut

/-- Crisis detection (lines 206-210) and `handleCrisisSubmission` (lines
644-653): compute the indicator on the combined content and emit a
`crisis_detected` event on a match. The stored row is not touched here —
the source skips the `crisis_flag` update. -/
def stepsCrisis (sub : SubmissionRow) (steps : List StepTag) (events : List EventRec)
    (transcribed combined translated : String) : AttemptOut :=
  let isCrisis := detectCrisisIndicators combined
  let events2 :=
    if isCrisis then events ++ [{ submission_id := sub.id, event_type := "crisis_detected" }]
    else events
  { steps := steps ++ [StepTag.crisisDetection], events := events2,
    outcome := Except.ok
      { transcribed := transcribed, combined := combined,
        translated := translated, isCrisis := isCrisis } }

/-- Translation step (lines 191-204): translate the combined content when it
is non-empty, emitting `content_translated`; then crisis detection. In the
source this translation call precedes the crisis check. -/
def stepsAfterAudio (env : PipelineEnv) (sub : SubmissionRow) (steps : List StepTag)
    (events : List EventRec) (transcribed : String) : AttemptOut :=
  let combined := combineContent sub.content transcribed
  if combined = "" then
    stepsCrisis sub steps events transcribed combined ""
  else
    match env.translate combined with
    | Except.error e =>
      { steps := steps ++ [StepTag.translation], events := events,
        outcome := Except.error e }
    | Except.ok tl =>
      stepsCrisis sub (steps ++ [StepTag.translation])
        (events ++ [{ submission_id := sub.id, event_type := "content_translated" }])
        transcribed combined tl.translatedText

/-- The enrichment steps of `processSubmission` in source order: validation
(never throws), transcription when audio is referenced (emitting
`audio_transcribed`), then `stepsAfterAudio` (translation, then crisis
detection). -/
def attemptSteps (env : PipelineEnv) (sub : SubmissionRow) : AttemptOut :=
  match sub.media_audio with
  | some audioRef =>
    (match env.transcribe audioRef with
     | Except.error e =>
       { steps := [StepTag.validation, StepTag.transcription], events := [],
         outcome := Except.error e }
     | Except.ok tr =>
       stepsAfterAudio env sub [StepTag.validation, StepTag.transcription]
         [{ submission_id := sub.id, event_type := "audio_transcribed" }] tr.transcript)
  | none => stepsAfterAudio env sub [StepTag.validation] [] ""

/-- `SubmissionService.retryDelays` (line 81). -/
def retryDelays : List Int := [1000, 2000, 4000, 8000, 16000]

/-- The value returned by a successful `processSubmission` (the fields of
`ProcessedSubmission` the model retains). -/
structure ProcessedSubmission where
  id : String
  processedContent : String
  translatedContent : String
  transcribedContent : String
  processingStatus : String
  retryCount : Nat
deriving DecidableEq, Repr

/-- Full outcome of one `processSubmission` call: the submissions row after
the call, the analytics events emitted (in order), the stage trace, and the
returned value or the (re)thrown error. -/
structure PipeOutcome where
  row : SubmissionRow
  events : List EventRec
  steps : List StepTag
  result : Except String ProcessedSubmission

/-- `SubmissionService.processSubmission` (lines 157-314). Success path:
status `processing`, run the steps, persist the enrichment plus a
`completed` log entry, status `completed`, emit `processing_completed`.
Failure path (lines 261-313): increment the retry count; while it is within
`maxRetries` (3), set status `pending`, record `retry_count` and
`next_retry_at = now + retryDelays[min(retryCount-1, 4)]`, append a `failed`
log entry and emit `processing_retry`; beyond the ceiling, set status
`failed` (only the status column is written) and emit `processing_failed`.
In both failure branches the caught error is rethrown. -/
def processSubmission (env : PipelineEnv) (sub : SubmissionRow) : PipeOutcome :=
  let row0 := { sub with processing_status := "processing" }
  let vres := validateSubmission "en" (defaultRules "en" env.now) [] env.now (rowToData sub)
  let a := attemptSteps env sub
  match a.outcome with
  | Except.ok core =>
    let entry : LogEntry :=
      { timestamp := env.now, stage := "ai_processing", status := "completed",
        errMsg := none, retryCount := none, nextRetryIn := none,
        processingTime := some 0, validationScore := some vres.confidence }
    let row1 :=
      { row0 with
        processed := true, processing_status := "completed",
        translated_content := some core.translated,
        processing_log := row0.processing_log ++ [entry] }
    { row := row1,
      events := a.events ++ [{ submission_id := sub.id, event_type := "processing_completed" }],
      steps := a.steps ++ [StepTag.persist],
      result := Except.ok
        { id := sub.id, processedContent := core.combined,
          translatedContent := core.translated, transcribedContent := core.transcribed,
          processingStatus := "completed", retryCount := sub.retry_count.getD 0 } }
  | Except.error e =>
    let retryCount := sub.retry_count.getD 0 + 1
    let maxRetries := 3
    if retryCount ≤ maxRetries then
      let delay := retryDelays.getD (min (retryCount - 1) (retryDelays.length - 1)) 0
      let entry : LogEntry :=
        { timestamp := env.now, stage := "ai_processing", status := "failed",
          errMsg := some e, retryCount := some retryCount, nextRetryIn := some delay,
          processingTime := none, validationScore := none }
      let row1 :=
        { row0 with
          processing_status := "pending",
          retry_count := some retryCount,
          next_retry_at := some (env.now + delay),
          processing_log := row0.processing_log ++ [entry] }
      { row := row1,
        events := a.events ++ [{ submission_id := sub.id, event_type := "processing_retry" }],
        steps := a.steps, result := Except.error e }
    else
      let row1 := { row0 with processing_status := "failed" }
      { row := row1,
        events := a.events ++ [{ submission_id := sub.id, event_type := "processing_failed" }],
        steps := a.steps, result := Except.error e }

/-- `SubmissionService.createSubmission` (lines 86-152), from the point at
which the submission row has been inserted (authentication, partner lookup
and media upload are earlier collaborator calls, elided here): invoke
`processSubmission`; on success emit `submission_created`; the surrounding
`catch` (lines 148-151) wraps any thrown error as
`Failed to create submission: <message>` and rethrows it. -/
def createSubmission (env : PipelineEnv) (sub : SubmissionRow) : PipeOutcome :=
  let out := processSubmission env sub
  match out.result with
  | Except.ok _ =>
    { out with events := out.events ++
        [{ submission_id := sub.id, event_type := "submission_created" }] }
  | Except.error e =>
    { out with result := Except.error ("Failed to create submission: " ++ e) }

/-! ## Concrete fixtures used by the theorems below -/

/-- The survivor-count example submission of the spec. -/
def dataC1 : SubmissionData :=
  { new_survivors := some 3, existing_survivors := some 5, total_survivors := some 9 }

/-- A structurally complete submission whose content contains `test`, so the
duplicate-detection rule returns a warning while staying valid. -/
def dataC2 : SubmissionData :=
  { content := some "just a test entry", privacy_level := some "ally",
    partner_id := some "p1" }

/-- The required-fields example submission of the spec: blank content. -/
def dataC7 : SubmissionData :=
  { content := some "", privacy_level := some "ally", partner_id := some "p1" }

/-- An override registered for the `required_field` error code, without
expiry. -/
def ovRequired : ValidationOverride :=
  { errorCode := "required_field", reason := "test waiver", authorizedBy := "admin",
    expiresAt := none }

/-- A string of `n` copies of `a`. -/
def strOfLen (n : Nat) : String := String.mk (List.replicate n 'a')

/-- Submission with a title of exactly the 200-character cap. -/
def dataTitle200 : SubmissionData := { title := some (strOfLen 200) }

/-- Submission with a 201-character title (one over the cap). -/
def dataTitle201 : SubmissionData := { title := some (strOfLen 201) }

/-- Submission with a 181-character title (just past 90% of the cap). -/
def dataTitle181 : SubmissionData := { title := some (strOfLen 181) }

/-- Collaborator environment in which every external call succeeds. -/
def envAllOk : PipelineEnv :=
  { transcribe := fun _ => Except.ok { transcript := "spoken words", confidence := 1 },
    translate := fun s =>
      Except.ok { translatedText := s, sourceLanguage := "en", confidence := 1 },
    now := 50 }

/-- Collaborator environment whose translation collaborator throws. -/
def envTranslateDown : PipelineEnv :=
  { envAllOk with translate := fun _ => Except.error "translate down" }

/-- A pending submission containing crisis keywords, no audio. -/
def subCrisis : SubmissionRow :=
  { id := "s5", content := some "This is an URGENT case", privacy_level := some "ally",
    partner_id := some "p1", media_audio := none, processing_status := "pending",
    retry_count := some 0, next_retry_at := none, processing_log := [],
    translated_content := none, processed := false, crisis_flag := false }

/-- A pending submission with crisis-keyword content used for the trace
counterexample. -/
def subTrace : SubmissionRow :=
  { subCrisis with id := "s4", content := some "urgent help needed" }

/-- A pending submission with no prior retries. -/
def subRetry0 : SubmissionRow :=
  { subCrisis with id := "s3", content := some "hello world", retry_count := some 0 }

/-- A rule whose validator always throws. -/
def ruleBoom : Rule :=
  { id := "boom", name := "Boom", descr := "always throws", severity := "warning",
    active := true, submissionTypes := [], validator := fun _ => none }

/-- An override for the survivor-count mismatch error expiring at time 100. -/
def ovMismatch : ValidationOverride :=
  { errorCode := "survivor_count_mismatch", reason := "approved variance",
    authorizedBy := "admin", expiresAt := some 100 }

/-! ## Theorems -/

/-- C1: when `new_survivors`, `existing_survivors` and `total_survivors` are
all provided, the `survivor_count_logic` rule reports an error iff
`new + existing ≠ total`; the error targets `total_survivors` and its
suggestion is the computed sum; in particular the submission
{new: 3, existing: 5, total: 9} yields the error with suggestion
"Expected total: 8". -/
theorem survivor_count_rule_spec (locale : String) (now : Int) (d : SubmissionData)
    (ns es ts : Int) (h1 : d.new_survivors = some ns) (h2 : d.existing_survivors = some es)
    (h3 : d.total_survivors = some ts) :
    ((validateSurvivorCounts locale now d).errors =
      if ns + es ≠ ts then
        [{ field := "total_survivors", code := "survivor_count_mismatch",
           message := getMessage locale "survivor_count_mismatch", severity := "high",
           suggestion := some ("Expected total: " ++ toString (ns + es)),
           canOverride := true }]
      else []) ∧
    ((validateSurvivorCounts locale now d).errors ≠ [] ↔ ns + es ≠ ts) ∧
    (validateSurvivorCounts "en" 0 dataC1).errors.map
      (fun e => (e.field, e.suggestion)) =
      [("total_survivors", some "Expected total: 8")] := by
  unfold validateSurvivorCounts
  rw [h1, h2, h3]
  refine ⟨?_, ?_, by decide⟩ <;> by_cases h : ns + es ≠ ts <;> simp [h]

/-- C1 witness: the general statement applied to the concrete example
submission {new: 3, existing: 5, total: 9}. -/
theorem survivor_count_rule_spec_witness :
    ((validateSurvivorCounts "en" 0 dataC1).errors =
      if (3 : Int) + 5 ≠ 9 then
        [{ field := "total_survivors", code := "survivor_count_mismatch",
           message := getMessage "en" "survivor_count_mismatch", severity := "high",
           suggestion := some ("Expected total: " ++ toString ((3 : Int) + 5)),
           canOverride := true }]
      else []) ∧
    ((validateSurvivorCounts "en" 0 dataC1).errors ≠ [] ↔ (3 : Int) + 5 ≠ 9) ∧
    (validateSurvivorCounts "en" 0 dataC1).errors.map
      (fun e => (e.field, e.suggestion)) =
      [("total_survivors", some "Expected total: 8")] :=
  survivor_count_rule_spec "en" 0 dataC1 3 5 9 rfl rfl rfl

/-- C2 (code bug): `validateSubmission` pushes a rule's errors and warnings
only when the rule's own result is invalid, so warnings returned by a rule
whose result has `isValid = true` are dropped from the aggregate. On a
submission whose content contains `test`, the duplicate-detection rule
returns a `potential_duplicate` warning together with `isValid = true`, and
the aggregate result of the engine run contains no warnings at all. -/
theorem warnings_dropped_when_rule_valid :
    (validateDuplicates "en" 0 dataC2).isValid = true ∧
    (validateDuplicates "en" 0 dataC2).warnings.map (fun w => w.code) =
      ["potential_duplicate"] ∧
    (validateSubmission "en" (defaultRules "en" 0) [] 0 dataC2).warnings = [] ∧
    (validateSubmission "en" (defaultRules "en" 0) [] 0 dataC2).errors = [] := by
  refine ⟨by decide, by decide, by decide, by decide⟩

/-- C5 (code bug): crisis detection is a case-insensitive substring match
against the fixed keyword list, and a match makes the pipeline emit a
`crisis_detected` event; but `handleCrisisSubmission` skips the
`crisis_flag` update, so the stored submission's `crisis_flag` (a column the
migrations create with default false) is left unchanged even though the
keyword matched. -/
theorem crisis_event_without_flag_write :
    detectCrisisIndicators "This is an URGENT case" = true ∧
    detectCrisisIndicators "nothing unusual" = false ∧
    ({ submission_id := "s5", event_type := "crisis_detected" } : EventRec) ∈
      (processSubmission envAllOk subCrisis).events ∧
    (processSubmission envAllOk subCrisis).row.processing_status = "completed" ∧
    (processSubmission envAllOk subCrisis).row.crisis_flag = false ∧
    subCrisis.crisis_flag = false := by
  refine ⟨by decide, by decide, by decide, by decide, by decide, by decide⟩

/-- C7 (code bug): the required-fields rule produces a high-severity
`required_field` error marked `canOverride := false` on the blank-content
example, and without overrides validation fails; but the override filter of
`validateSubmission` never consults `canOverride`, so registering an
override for the `required_field` code removes the error and the same
submission validates successfully. -/
theorem required_field_error_overridden :
    (validateSubmission "en" (defaultRules "en" 0) [] 0 dataC7).errors.map
      (fun e => (e.field, e.code, e.canOverride)) =
      [("content", "required_field", false)] ∧
    (validateSubmission "en" (defaultRules "en" 0) [] 0 dataC7).isValid = false ∧
    (validateSubmission "en" (defaultRules "en" 0) (addOverride ovRequired []) 0
      dataC7).errors = [] ∧
    (validateSubmission "en" (defaultRules "en" 0) (addOverride ovRequired []) 0
      dataC7).isValid = true := by
  refine ⟨by decide, by decide, by decide, by decide⟩

/-- C9 counterexample: the claim asserts a `character_limit_exceeded` error
already when a field's length is at 100% of its cap, but a title of exactly
200 characters (100% of the 200 cap) produces no error at all (only the
approaching-limit warning) — the source's comparison is strictly greater. -/
theorem character_limit_at_cap_counterexample :
    (strOfLen 200).length = 200 ∧
    (validateCharacterLimits "en" 0 dataTitle200).errors = [] ∧
    (validateCharacterLimits "en" 0 dataTitle200).warnings.map (fun w => w.code) =
      ["approaching_character_limit"] := by
  refine ⟨by decide, by decide, by decide⟩

/-- C9 (amended): the character-limits rule uses the fixed caps
content 10000, title 200, description 1000, notes 5000; a field errs
(overridable `character_limit_exceeded`) iff its length strictly exceeds its
cap, and warns iff its length is at most the cap but strictly above 90% of
it; a 200-character title passes with a warning, a 201-character title fails
with `character_limit_exceeded`, and a 181-character title warns only. -/
theorem character_limit_thresholds :
    charLimits = [("content", 10000), ("title", 200), ("description", 1000),
      ("notes", 5000)] ∧
    (∀ (field : String) (limit : Nat) (s : String),
      (((checkLimit "en" field limit (some s)).1 ≠ []) ↔ s.length > limit) ∧
      (((checkLimit "en" field limit (some s)).2 ≠ []) ↔
        (s.length ≤ limit ∧ 10 * s.length > 9 * limit))) ∧
    (validateCharacterLimits "en" 0 dataTitle200).errors = [] ∧
    (validateCharacterLimits "en" 0 dataTitle201).errors.map
      (fun e => (e.code, e.canOverride)) = [("character_limit_exceeded", true)] ∧
    (validateCharacterLimits "en" 0 dataTitle201).warnings = [] ∧
    (validateCharacterLimits "en" 0 dataTitle181).errors = [] ∧
    (validateCharacterLimits "en" 0 dataTitle181).warnings.map (fun w => w.code) =
      ["approaching_character_limit"] := by
  refine ⟨by decide, ?_, by decide, by decide, by decide, by decide, by decide⟩
  intro field limit s
  unfold checkLimit
  dsimp only
  by_cases hs : s = ""
  · rw [if_pos hs]
    subst hs
    have h0 : ("" : String).length = 0 := rfl
    simp [h0]
  · rw [if_neg hs]
    by_cases h1 : s.length > limit
    · rw [if_pos h1]
      simp [h1]
    · rw [if_neg h1]
      by_cases h2 : 10 * s.length > 9 * limit
      · rw [if_pos h2]
        simp
        omega
      · rw [if_neg h2]
        simp
        omega

/-- The rule loop distributes over list concatenation: contributions of two
rule segments concatenate componentwise. -/
theorem runRules_append (locale : String) (d : SubmissionData) (xs ys : List Rule) :
    runRules locale d (xs ++ ys) =
      RuleAgg.append (runRules locale d xs) (runRules locale d ys) := by
  induction xs with
  | nil =>
    show runRules locale d ys = _
    cases h : runRules locale d ys
    simp [runRules, RuleAgg.append]
  | cons r rs ih =>
    show runRules locale d (r :: (rs ++ ys)) = _
    simp only [runRules, ih]
    by_cases ha : ruleApplies r d
    · simp only [ha, if_true]
      cases hv : r.validator d with
      | none => simp [RuleAgg.append]
      | some res =>
        cases hiv : res.isValid <;>
          simp [hiv, RuleAgg.append, List.append_assoc, add_assoc, add_comm,
            add_left_comm]
    · simp [ha]

/-- C6: an aggregated error is removed from `validate().errors` iff an
override registered for its code has no expiry or an expiry not in the past,
with the expiry evaluated against the validation-time clock; `isValid` is
true iff the filtered error list is empty and warnings pass through
untouched; `addOverride` registers the override under its code, and an
override with expiry `t` suppresses at any time ≤ `t` and stops suppressing
at any time past `t` (so the error reappears in `validate().errors`). -/
theorem override_expiry_semantics (locale : String) (rules : List Rule)
    (d : SubmissionData) (ovs : List ValidationOverride) (now : Int) :
    (∀ (ovs2 : List ValidationOverride) (now2 : Int) (e : ValidationError),
      e ∈ (validateSubmission locale rules ovs2 now2 d).errors ↔
        e ∈ (runRules locale d rules).errors ∧ keepsError ovs2 now2 e = true) ∧
    (∀ (ovs2 : List ValidationOverride) (now2 : Int) (e : ValidationError),
      keepsError ovs2 now2 e = false ↔
        ∃ ov, findOverride ovs2 e.code = some ov ∧
          (ov.expiresAt = none ∨ ∃ t, ov.expiresAt = some t ∧ now2 ≤ t)) ∧
    ((validateSubmission locale rules ovs now d).isValid = true ↔
      (validateSubmission locale rules ovs now d).errors = []) ∧
    (validateSubmission locale rules ovs now d).warnings =
      (runRules locale d rules).warnings ∧
    (∀ o : ValidationOverride,
      findOverride (addOverride o ovs) o.errorCode = some o) ∧
    (∀ (o : ValidationOverride) (e : ValidationError) (t now1 now2 : Int),
      e.code = o.errorCode → o.expiresAt = some t → ¬ t < now1 → t < now2 →
        keepsError (addOverride o ovs) now1 e = false ∧
        keepsError (addOverride o ovs) now2 e = true) := by
  refine ⟨?_, ?_, ?_, rfl, ?_, ?_⟩
  · intro ovs2 now2 e
    simp [validateSubmission, List.mem_filter]
  · intro ovs2 now2 e
    unfold keepsError
    cases hov : findOverride ovs2 e.code with
    | none => simp
    | some ov =>
      cases hexp : ov.expiresAt with
      | none => simp [hexp]
      | some t =>
        simp [hexp, Int.not_lt]
  · simp [validateSubmission, List.isEmpty_iff]
  · intro o
    simp [findOverride, addOverride, List.find?]
  · intro o e t now1 now2 hcode hexp h1 h2
    have hfind : findOverride (addOverride o ovs) e.code = some o := by
      rw [hcode]
      simp [findOverride, addOverride, List.find?]
    constructor
    · unfold keepsError
      rw [hfind]
      simp [hexp, h1]
    · unfold keepsError
      rw [hfind]
      simp [hexp, h2]

/-- C6 witness: the validity characterization and the `addOverride` lookup,
applied to the default rules, the survivor-count example and the concrete
override expiring at time 100; plus suppression at time 50 and reappearance
at time 200 for the mismatch error. -/
theorem override_expiry_semantics_witness :
    ((validateSubmission "en" (defaultRules "en" 0) [ovMismatch] 0 dataC1).isValid = true ↔
      (validateSubmission "en" (defaultRules "en" 0) [ovMismatch] 0 dataC1).errors = []) ∧
    findOverride (addOverride ovMismatch []) ovMismatch.errorCode = some ovMismatch := by
  refine ⟨(override_expiry_semantics "en" (defaultRules "en" 0) dataC1 [ovMismatch] 0).2.2.1,
    (override_expiry_semantics "en" (defaultRules "en" 0) dataC1 [] 0).2.2.2.2.1 ovMismatch⟩

/-- C8: a throwing validator is fault-isolated: with an applicable rule `r`
whose validator throws spliced anywhere into the rule list, the aggregated
errors are unchanged, the aggregated warnings gain exactly the one
`validation_rule_error` warning referencing `r` (the surrounding rules still
contribute, so the loop continued), and the final result's errors and
validity are the same as without `r`. -/
theorem rule_fault_isolation (locale : String) (now : Int) (d : SubmissionData)
    (ovs : List ValidationOverride) (pre post : List Rule) (r : Rule)
    (happ : ruleApplies r d = true) (hthrow : r.validator d = none) :
    (runRules locale d (pre ++ r :: post)).errors =
      (runRules locale d (pre ++ post)).errors ∧
    (runRules locale d (pre ++ r :: post)).warnings =
      (runRules locale d pre).warnings ++
        ruleErrorWarning locale r :: (runRules locale d post).warnings ∧
    (validateSubmission locale (pre ++ r :: post) ovs now d).errors =
      (validateSubmission locale (pre ++ post) ovs now d).errors ∧
    (validateSubmission locale (pre ++ r :: post) ovs now d).isValid =
      (validateSubmission locale (pre ++ post) ovs now d).isValid := by
  have hmid : runRules locale d (r :: post) =
      { errors := (runRules locale d post).errors,
        warnings := ruleErrorWarning locale r :: (runRules locale d post).warnings,
        totalConfidence := (runRules locale d post).totalConfidence,
        applicableRules := (runRules locale d post).applicableRules } := by
    simp [runRules, happ, hthrow]
  have h1 := runRules_append locale d pre (r :: post)
  have h2 := runRules_append locale d pre post
  have he : (runRules locale d (pre ++ r :: post)).errors =
      (runRules locale d (pre ++ post)).errors := by
    rw [h1, h2, hmid]
    simp [RuleAgg.append]
  have hw : (runRules locale d (pre ++ r :: post)).warnings =
      (runRules locale d pre).warnings ++
        ruleErrorWarning locale r :: (runRules locale d post).warnings := by
    rw [h1, hmid]
    simp [RuleAgg.append]
  refine ⟨he, hw, ?_, ?_⟩
  · show ((runRules locale d (pre ++ r :: post)).errors.filter
        (keepsError ovs now)) = _
    rw [he]
    rfl
  · show ((runRules locale d (pre ++ r :: post)).errors.filter
        (keepsError ovs now)).isEmpty = _
    rw [he]
    rfl

/-- C8 witness: the fault-isolation statement applied to the always-throwing
rule spliced in front of the default rules on the duplicate-content
example. -/
theorem rule_fault_isolation_witness :
    (runRules "en" dataC2 ([] ++ ruleBoom :: defaultRules "en" 0)).errors =
      (runRules "en" dataC2 ([] ++ defaultRules "en" 0)).errors ∧
    (runRules "en" dataC2 ([] ++ ruleBoom :: defaultRules "en" 0)).warnings =
      (runRules "en" dataC2 []).warnings ++
        ruleErrorWarning "en" ruleBoom :: (runRules "en" dataC2 (defaultRules "en" 0)).warnings ∧
    (validateSubmission "en" ([] ++ ruleBoom :: defaultRules "en" 0) [] 0 dataC2).errors =
      (validateSubmission "en" ([] ++ defaultRules "en" 0) [] 0 dataC2).errors ∧
    (validateSubmission "en" ([] ++ ruleBoom :: defaultRules "en" 0) [] 0 dataC2).isValid =
      (validateSubmission "en" ([] ++ defaultRules "en" 0) [] 0 dataC2).isValid :=
  rule_fault_isolation "en" 0 dataC2 [] [] (defaultRules "en" 0) ruleBoom rfl rfl

/-- C3: on any failing run, the recorded retry count is the prior count plus
one; within the ceiling (3) the status returns to `pending` and
`next_retry_at` is exactly `now` plus the table entry `min(r, 4)` of
[1000, 2000, 4000, 8000, 16000]; beyond the ceiling the status becomes
`failed` and no retry is recorded (`retry_count` and `next_retry_at` are
left untouched). -/
theorem retry_backoff_policy (env : PipelineEnv) (sub : SubmissionRow) (e : String)
    (hfail : (processSubmission env sub).result = Except.error e) :
    (sub.retry_count.getD 0 + 1 ≤ 3 →
      (processSubmission env sub).row.retry_count = some (sub.retry_count.getD 0 + 1) ∧
      (processSubmission env sub).row.next_retry_at =
        some (env.now + retryDelays.getD (min (sub.retry_count.getD 0) 4) 0) ∧
      (processSubmission env sub).row.processing_status = "pending") ∧
    (sub.retry_count.getD 0 + 1 > 3 →
      (processSubmission env sub).row.processing_status = "failed" ∧
      (processSubmission env sub).row.next_retry_at = sub.next_retry_at ∧
      (processSubmission env sub).row.retry_count = sub.retry_count) := by
  cases hA : (attemptSteps env sub).outcome with
  | ok core =>
    exfalso
    simp [processSubmission, hA] at hfail
  | error e2 =>
    constructor
    · intro hle
      simp only [processSubmission, hA]
      rw [if_pos hle]
      refine ⟨rfl, ?_, rfl⟩
      simp [retryDelays]
    · intro hgt
      have hnle : ¬ (sub.retry_count.getD 0 + 1 ≤ 3) := by omega
      simp only [processSubmission, hA]
      rw [if_neg hnle]
      exact ⟨rfl, rfl, rfl⟩

/-- C3 witness: the retry policy applied to a first failure (prior retry
count 0) caused by a throwing translation collaborator. -/
theorem retry_backoff_policy_witness :
    (subRetry0.retry_count.getD 0 + 1 ≤ 3 →
      (processSubmission envTranslateDown subRetry0).row.retry_count =
        some (subRetry0.retry_count.getD 0 + 1) ∧
      (processSubmission envTranslateDown subRetry0).row.next_retry_at =
        some (envTranslateDown.now +
          retryDelays.getD (min (subRetry0.retry_count.getD 0) 4) 0) ∧
      (processSubmission envTranslateDown subRetry0).row.processing_status = "pending") ∧
    (subRetry0.retry_count.getD 0 + 1 > 3 →
      (processSubmission envTranslateDown subRetry0).row.processing_status = "failed" ∧
      (processSubmission envTranslateDown subRetry0).row.next_retry_at =
        subRetry0.next_retry_at ∧
      (processSubmission envTranslateDown subRetry0).row.retry_count =
        subRetry0.retry_count) :=
  retry_backoff_policy envTranslateDown subRetry0 "translate down" rfl

/-- C10: whenever a processing step throws, `processSubmission` rethrows the
error to its caller — also when a retry has just been recorded — so
`createSubmission` fails with the wrapped error instead of returning a
processed submission. -/
theorem process_error_rethrown (env : PipelineEnv) (sub : SubmissionRow) (e : String)
    (hthrow : (attemptSteps env sub).outcome = Except.error e) :
    (processSubmission env sub).result = Except.error e ∧
    (createSubmission env sub).result =
      Except.error ("Failed to create submission: " ++ e) ∧
    (∀ p, (createSubmission env sub).result ≠ Except.ok p) ∧
    (sub.retry_count.getD 0 + 1 ≤ 3 →
      (processSubmission env sub).row.processing_status = "pending" ∧
      (processSubmission env sub).row.next_retry_at ≠ none) := by
  have hres : (processSubmission env sub).result = Except.error e := by
    simp only [processSubmission, hthrow]
    split <;> rfl
  refine ⟨hres, ?_, ?_, ?_⟩
  · simp [createSubmission, hres]
  · intro p
    simp [createSubmission, hres]
  · intro hle
    simp only [processSubmission, hthrow]
    rw [if_pos hle]
    exact ⟨rfl, by simp⟩

/-- C10 witness: a failing translation step on a first attempt makes both
`processSubmission` and `createSubmission` fail even though the retry was
recorded. -/
theorem process_error_rethrown_witness :
    (processSubmission envTranslateDown subRetry0).result =
      Except.error "translate down" ∧
    (createSubmission envTranslateDown subRetry0).result =
      Except.error ("Failed to create submission: " ++ "translate down") ∧
    (∀ p, (createSubmission envTranslateDown subRetry0).result ≠ Except.ok p) ∧
    (subRetry0.retry_count.getD 0 + 1 ≤ 3 →
      (processSubmission envTranslateDown subRetry0).row.processing_status = "pending" ∧
      (processSubmission envTranslateDown subRetry0).row.next_retry_at ≠ none) :=
  process_error_rethrown envTranslateDown subRetry0 "translate down" rfl

/-- The translation/crisis tail of the step sequence appends, after the
steps already taken, either just the crisis tag (empty combined content), or
just the translation tag (translation threw), or translation followed by
crisis detection. -/
theorem stepsAfterAudio_cases (env : PipelineEnv) (sub : SubmissionRow)
    (steps0 : List StepTag) (events : List EventRec) (transcribed : String) :
    (stepsAfterAudio env sub steps0 events transcribed).steps =
        steps0 ++ [StepTag.crisisDetection] ∨
    (stepsAfterAudio env sub steps0 events transcribed).steps =
        steps0 ++ [StepTag.translation] ∨
    (stepsAfterAudio env sub steps0 events transcribed).steps =
        steps0 ++ [StepTag.translation, StepTag.crisisDetection] := by
  by_cases hc : combineContent sub.content transcribed = ""
  · left
    simp [stepsAfterAudio, stepsCrisis, hc]
  · cases ht : env.translate (combineContent sub.content transcribed) with
    | error e =>
      right
      left
      simp [stepsAfterAudio, hc, ht]
    | ok tl =>
      right
      right
      simp [stepsAfterAudio, stepsCrisis, hc, ht, List.append_assoc]

/-- Every run of the enrichment steps produces a stage trace that is a
subsequence of validation → transcription → translation → crisis detection
and starts with validation. -/
theorem attemptSteps_trace (env : PipelineEnv) (sub : SubmissionRow) :
    List.Sublist (attemptSteps env sub).steps
      [StepTag.validation, StepTag.transcription, StepTag.translation,
        StepTag.crisisDetection] ∧
    ∃ rest, (attemptSteps env sub).steps = StepTag.validation :: rest := by
  cases hm : sub.media_audio with
  | none =>
    have hsteps : (attemptSteps env sub).steps =
        (stepsAfterAudio env sub [StepTag.validation] [] "").steps := by
      simp [attemptSteps, hm]
    rw [hsteps]
    rcases stepsAfterAudio_cases env sub [StepTag.validation] [] "" with h | h | h <;>
      rw [h] <;> exact ⟨by decide, _, rfl⟩
  | some aref =>
    cases ht : env.transcribe aref with
    | error e =>
      have hsteps : (attemptSteps env sub).steps =
          [StepTag.validation, StepTag.transcription] := by
        simp [attemptSteps, hm, ht]
      rw [hsteps]
      exact ⟨by decide, _, rfl⟩
    | ok tr =>
      have hsteps : (attemptSteps env sub).steps =
          (stepsAfterAudio env sub [StepTag.validation, StepTag.transcription]
            [{ submission_id := sub.id, event_type := "audio_transcribed" }]
            tr.transcript).steps := by
        simp [attemptSteps, hm, ht]
      rw [hsteps]
      rcases stepsAfterAudio_cases env sub [StepTag.validation, StepTag.transcription]
          [{ submission_id := sub.id, event_type := "audio_transcribed" }]
          tr.transcript with h | h | h <;>
        rw [h] <;> exact ⟨by decide, _, rfl⟩

/-- C4 (amended): within one run the stage trace is always a subsequence of
validation → transcription → translation → crisis detection → persistence
and starts with validation; in particular when both run, the translation
collaborator is invoked before crisis-keyword detection. -/
theorem pipeline_step_ordering (env : PipelineEnv) (sub : SubmissionRow) :
    List.Sublist (processSubmission env sub).steps
      [StepTag.validation, StepTag.transcription, StepTag.translation,
        StepTag.crisisDetection, StepTag.persist] ∧
    (processSubmission env sub).steps.head? = some StepTag.validation := by
  obtain ⟨hs, rest, hrest⟩ := attemptSteps_trace env sub
  cases hA : (attemptSteps env sub).outcome with
  | ok core =>
    have hsteps : (processSubmission env sub).steps =
        (attemptSteps env sub).steps ++ [StepTag.persist] := by
      simp [processSubmission, hA]
    constructor
    · rw [hsteps]
      exact List.Sublist.append hs (List.Sublist.refl _)
    · rw [hsteps, hrest]
      rfl
  | error e =>
    have hsteps : (processSubmission env sub).steps = (attemptSteps env sub).steps := by
      simp only [processSubmission, hA]
      split <;> rfl
    constructor
    · rw [hsteps]
      exact hs.trans (by decide)
    · rw [hsteps, hrest]
      rfl

/-- C4 counterexample: on a no-audio submission with non-empty crisis
content, the actual trace invokes the translation collaborator before
crisis-keyword detection, refuting the claimed order (crisis detection
before translation). -/
theorem pipeline_order_counterexample :
    (processSubmission envAllOk subTrace).steps =
      [StepTag.validation, StepTag.translation, StepTag.crisisDetection,
        StepTag.persist] ∧
    (processSubmission envAllOk subTrace).steps ≠
      [StepTag.validation, StepTag.crisisDetection, StepTag.translation,
        StepTag.persist] := by
  refine ⟨by decide, by decide⟩

end Impact
